import Mathlib

/-!
Shallow embedding of `src/server/agent-templates/python-agent.py` (PatrolD
monitoring agent) and verification of its specification claims.

Modelling conventions:
- JSON values (Python objects produced by `json.loads`) are the inductive
  type `Json`; Python truthiness is `pyTruthy`.
- Python's `k in v` operator and `v[k]` subscription are `inOp` / `indexOp`,
  returning `Except Unit _` where `.error ()` stands for a raised
  `TypeError`/`KeyError`.
- Fallible calls return `Option`/`Except`; a caught exception is folded into
  the caller's failure branch, exactly where the source's `try`/`except`
  blocks catch it.
- Elapsed wall-clock time is modelled as a natural number of milliseconds,
  i.e. the value the source computes as `int((time.time() - start) * 1000)`.
- Network and socket I/O is external: each call site takes the outcome of
  the I/O (`ProbeOutcome`, `NetOutcome`) as an explicit parameter and the
  embedding covers the code's handling of every possible outcome.
-/

namespace PatrolD

/-- A parsed JSON value, as returned by Python's `json.loads`. -/
inductive Json where
  | null
  | bool (b : Bool)
  | num (n : Int)
  | str (s : String)
  | arr (xs : List Json)
  | obj (fields : List (String × Json))

/-- Python truthiness of a parsed JSON value (`if result:`): `None`, `False`,
`0`, `""`, `[]`, `{}` are falsy, everything else truthy. -/
def pyTruthy : Json → Bool
  | .null => false
  | .bool b => b
  | .num n => n != 0
  | .str s => s != ""
  | .arr xs => !xs.isEmpty
  | .obj fs => !fs.isEmpty

/-- `listStarts needle hay`: `needle` is an initial segment of `hay`. -/
def listStarts : List Char → List Char → Bool
  | [], _ => true
  | _ :: _, [] => false
  | a :: as, b :: bs => a == b && listStarts as bs

/-- `listHasSub needle hay`: `needle` occurs contiguously inside `hay`
(Python's substring containment `needle in hay`). -/
def listHasSub (needle : List Char) : List Char → Bool
  | [] => listStarts needle []
  | hay@(_ :: t) => listStarts needle hay || listHasSub needle t

/-- First value bound to key `k` in a JSON object's field list
(Python `dict` lookup; the agent's objects have unique keys). -/
def objGet (fs : List (String × Json)) (k : String) : Option Json :=
  (fs.find? (fun p => p.1 == k)).map (fun p => p.2)

/-- Python's `k in v` for a string key `k`: key membership for a dict,
element equality for a list, substring test for a string; a `TypeError`
(modelled `.error ()`) for `None`/booleans/numbers. -/
def inOp : Json → String → Except Unit Bool
  | .obj fs, k => .ok (fs.any (fun p => p.1 == k))
  | .arr xs, k =>
      .ok (xs.any (fun j => match j with | .str s => s == k | _ => false))
  | .str s, k => .ok (listHasSub k.data s.data)
  | _, _ => .error ()

/-- Python's `v[k]` for a string key `k`: dict lookup (raising `KeyError`
when the key is absent), `TypeError` on every non-dict value. -/
def indexOp : Json → String → Except Unit Json
  | .obj fs, k =>
      match objGet fs k with
      | some v => .ok v
      | none => .error ()
  | _, _ => .error ()

/-- `jsonField j k`: the value of field `k` when `j` is a JSON object that
has it, `none` otherwise (used to state "the body lacks an `agentId`
field"). -/
def jsonField (j : Json) (k : String) : Option Json :=
  match j with
  | .obj fs => objGet fs k
  | _ => none

def exOk {α : Type} : Except Unit α → Bool
  | .ok _ => true
  | .error _ => false

/-! ## Configuration constants (module top of `python-agent.py`) -/

/-- The `API_KEY` placeholder sentinel shipped in the template. -/
def apiKeyPlaceholder : String := "\x7b\x7bAPI_KEY\x7d\x7d"

/-- The `API_BASE_URL` placeholder sentinel shipped in the template. -/
def baseUrlPlaceholder : String := "\x7b\x7bAPI_BASE_URL\x7d\x7d"

/-- `CHECK_INTERVAL` (seconds). -/
def CHECK_INTERVAL : Nat := 1

/-- `HEARTBEAT_INTERVAL` (seconds). -/
def HEARTBEAT_INTERVAL : Nat := 1

/-- `REQUEST_TIMEOUT` (seconds), used both for socket probes and HTTP. -/
def REQUEST_TIMEOUT : Nat := 3

/-- The degraded threshold: the literal `1000` in
`if response_time > 1000`. A module-level fixed constant, not a
per-service parameter. -/
def degradedThresholdMs : Nat := 1000

/-! ## Connectivity Prober: `check_service` -/

/-- Status classification of a probe. -/
inductive Status where
  | online
  | degraded
  | offline
deriving DecidableEq

/-- Outcome of the socket connect attempt in `check_service`:
either the peer accepted after `elapsedMs` milliseconds (the value
`int((time.time() - start_time) * 1000)`), or the attempt raised
`socket.timeout`, a `socket.error` (refused/unreachable), or some other
exception. -/
inductive ProbeOutcome where
  | success (elapsedMs : Nat)
  | timeout
  | sockError
  | otherError

/-- The dict returned by `check_service`: exactly the keys
`host`, `port`, `status`, `responseTime`. -/
structure CheckResult where
  host : Json
  port : Json
  status : Status
  responseTime : Option Nat

/-- Classification core of `check_service` (lines 83–119): on a successful
connect the status is `online`, downgraded to `degraded` when
`response_time > 1000`; on `socket.timeout`, `socket.error` or any other
exception both handlers return `offline` with `responseTime = None`.
The function is total: no exception escapes its boundary. -/
def checkService (host port : Json) (o : ProbeOutcome) : CheckResult :=
  match o with
  | .success ms =>
      let status := if ms > degradedThresholdMs then Status.degraded else Status.online
      { host := host, port := port, status := status, responseTime := some ms }
  | .timeout =>
      { host := host, port := port, status := .offline, responseTime := none }
  | .sockError =>
      { host := host, port := port, status := .offline, responseTime := none }
  | .otherError =>
      { host := host, port := port, status := .offline, responseTime := none }

/-- `check_service` including its first two lines (77–81):
`service["host"]` and `service["port"]` are evaluated before the `try`
block, so a service record lacking either key raises out of
`check_service` (modelled `.error ()`). -/
def checkServiceEntry (service : Json) (o : ProbeOutcome) : Except Unit CheckResult :=
  match indexOp service "host" with
  | .error _ => .error ()
  | .ok hv =>
      match indexOp service "port" with
      | .error _ => .error ()
      | .ok pv => .ok (checkService hv pv o)

/-! ## Reporting Client: `send_api_request`, `report_service_status` -/

/-- Outcome of one HTTP POST in `send_api_request`: either the transport
raised (connection error / timeout — any exception before the response is
parsed), or a response arrived with a status code and a body whose JSON
parse either succeeded (`some j`) or raised (`none`). -/
inductive NetOutcome where
  | netError
  | response (status : Nat) (parsed : Option Json)

/-- `send_api_request` (lines 121–160): on HTTP 200 return the parsed JSON
body; a parse failure is caught by the enclosing `except` and yields
`None`; any non-200 status yields `None`; any transport exception yields
`None`. `none` is the failure sentinel. -/
def sendApiRequest (o : NetOutcome) : Option Json :=
  match o with
  | .netError => none
  | .response status parsed => if status == 200 then parsed else none

/-- `report_service_status` (lines 193–210): sends the check result and
returns `True` exactly when `send_api_request`'s return value is truthy
(`if api_result:`). The `result` payload itself does not influence the
return value. -/
def reportServiceStatus (result : CheckResult) (o : NetOutcome) : Bool :=
  match sendApiRequest o with
  | some v => pyTruthy v
  | none => false

/-! ## Worklist Store + heartbeat: `send_heartbeat` -/

/-- Whether the heartbeat success log loop can print one worklist entry:
`f"- {service['name']} ({service['host']}:{service['port']})"` evaluates
all three subscriptions, raising if any is missing. -/
def entryPrintable (s : Json) : Bool :=
  exOk (indexOp s "name") && exOk (indexOp s "host") && exOk (indexOp s "port")

/-- `send_heartbeat` (lines 162–191), as a function of the
`send_api_request` result and the prior `SERVICES` worklist, returning
(return value, new `SERVICES`). The whole body is wrapped in
`try`/`except Exception` returning `False`; any exception is folded into
a `(false, _)` branch at the point the source would raise. Note that the
`SERVICES = result['services']` assignment precedes the per-entry log
loop, so a raise inside that loop leaves the *new* list in place. -/
def sendHeartbeat (result : Option Json) (services : List Json) : Bool × List Json :=
  match result with
  | none => (false, services)
  | some r =>
      if !pyTruthy r then (false, services)
      else
        match inOp r "agentId" with
        | .error _ => (false, services)
        | .ok false => (false, services)
        | .ok true =>
            match indexOp r "agentId" with
            | .error _ => (false, services)
            | .ok _ =>
                match inOp r "services" with
                | .error _ => (false, services)
                | .ok false => (true, services)
                | .ok true =>
                    match indexOp r "services" with
                    | .error _ => (false, services)
                    | .ok sv =>
                        match sv with
                        | .arr l =>
                            if l.all entryPrintable then (true, l) else (false, l)
                        | _ => (true, services)

/-! ## Check sweep: `run_service_checks` -/

/-- Recorded outcome of one worklist entry inside a sweep:
either the entry's processing raised and the inner `except` caught it
(`faulted`), or a check result was produced and reported. -/
inductive SweepOutcome where
  | faulted
  | reported (r : CheckResult) (reportOk : Bool)

/-- One iteration of the `for service in SERVICES` body (lines 216–221):
`check_service` then `report_service_status`, with the inner
`try`/`except` catching any raise from this entry. Total: a fault becomes
a `faulted` outcome instead of escaping. -/
def sweepEntry (e : Json × ProbeOutcome × NetOutcome) : SweepOutcome :=
  match checkServiceEntry e.1 e.2.1 with
  | .error _ => .faulted
  | .ok r => .reported r (reportServiceStatus r e.2.2)

/-- `run_service_checks` (lines 212–223): process every worklist entry in
listed order; each entry is handled independently under its own
exception guard. Each entry is paired with the outcomes of its probe and
of its report POST. -/
def runServiceChecks (work : List (Json × ProbeOutcome × NetOutcome)) : List SweepOutcome :=
  work.map sweepEntry

/-! ## Startup and scheduler loop: `main` and the `__main__` guard -/

/-- Observable actions of `main` before/at the loop boundary. -/
inductive MainAction where
  | printConfigError
  | printStartup
  | heartbeat
  | enterLoop
deriving DecidableEq

/-- `main` (lines 232–270) up to the loop boundary: the two placeholder
checks, the startup prints, the initial `send_heartbeat()`, then the
infinite loop. Returns the ordered action list and `main`'s return value
(`some 1` on rejected configuration; `none` because the loop never
returns otherwise). -/
def mainRun (apiKey baseUrl : String) : List MainAction × Option Nat :=
  if apiKey == apiKeyPlaceholder then ([.printConfigError], some 1)
  else if baseUrl == baseUrlPlaceholder then ([.printConfigError], some 1)
  else ([.printStartup, .heartbeat, .enterLoop], none)

/-- The `if __name__ == "__main__": main()` guard (lines 276–277): the
return value of `main` is discarded, so whenever `main` returns, the
interpreter exits the process with status 0; `none` when `main` never
returns. -/
def processExitCode (apiKey baseUrl : String) : Option Nat :=
  match (mainRun apiKey baseUrl).2 with
  | some _ => some 0
  | none => none

/-- Scheduler state: the two `last_*` timestamps (seconds, as read from
`time.time()`). -/
structure LoopState where
  lastHeartbeat : Nat
  lastServiceCheck : Nat

/-- Actions fired within one loop iteration. -/
inductive LoopAction where
  | heartbeat
  | checkSweep
deriving DecidableEq

/-- One iteration of the `while True` loop body (lines 255–270): read
`current_time` once, fire the heartbeat when
`current_time - last_heartbeat >= HEARTBEAT_INTERVAL`, then fire the
check sweep when `current_time - last_service_check >= CHECK_INTERVAL`,
updating each `last_*` to `current_time` when its action fires. Returns
the actions fired, in program order, and the new state. -/
def loopIter (now : Nat) (st : LoopState) : List LoopAction × LoopState :=
  let hb := decide (now - st.lastHeartbeat ≥ HEARTBEAT_INTERVAL)
  let lastHB := if hb then now else st.lastHeartbeat
  let sc := decide (now - st.lastServiceCheck ≥ CHECK_INTERVAL)
  let lastSC := if sc then now else st.lastServiceCheck
  ((if hb then [LoopAction.heartbeat] else []) ++
     (if sc then [LoopAction.checkSweep] else []),
   { lastHeartbeat := lastHB, lastServiceCheck := lastSC })

/-! ## Helper lemmas -/

/-- A key found by `objGet` makes the `in`-operator's `any` scan succeed. -/
theorem any_key_of_objGet_some {fs : List (String × Json)} {k : String} {v : Json}
    (h : objGet fs k = some v) : fs.any (fun p => p.1 == k) = true := by
  unfold objGet at h
  rcases Option.map_eq_some'.mp h with ⟨p, hp, _⟩
  have hpk : (fun q : String × Json => q.1 == k) p = true :=
    List.find?_some (p := fun q : String × Json => q.1 == k) hp
  exact List.any_eq_true.mpr ⟨p, List.mem_of_find?_eq_some hp, hpk⟩

/-- A key missing per `objGet` makes the `in`-operator's `any` scan fail. -/
theorem any_key_of_objGet_none {fs : List (String × Json)} {k : String}
    (h : objGet fs k = none) : fs.any (fun p => p.1 == k) = false := by
  unfold objGet at h
  rw [Option.map_eq_none'] at h
  rw [List.find?_eq_none] at h
  exact List.any_eq_false.mpr h

/-- An object with a key is nonempty, hence truthy. -/
theorem truthy_of_objGet_some {fs : List (String × Json)} {k : String} {v : Json}
    (h : objGet fs k = some v) : pyTruthy (Json.obj fs) = true := by
  cases fs with
  | nil => simp [objGet] at h
  | cons p t => simp [pyTruthy]

/-! ## Claims -/

/-- C1: the claim says a placeholder `API_KEY`/`API_BASE_URL` makes the agent
print a message, perform no network contact, and exit the process with
status 1. The code prints the message and `main` returns `1` before any
heartbeat — but the `if __name__ == "__main__": main()` guard discards
`main`'s return value, so the interpreter exits with status 0, not 1. -/
theorem C1_placeholder_rejected_but_exit_zero (baseUrl : String) :
    mainRun apiKeyPlaceholder baseUrl = ([MainAction.printConfigError], some 1) ∧
    MainAction.heartbeat ∉ (mainRun apiKeyPlaceholder baseUrl).1 ∧
    processExitCode apiKeyPlaceholder baseUrl = some 0 ∧
    some 0 ≠ some 1 := by
  refine ⟨by simp [mainRun], ?_, by simp [mainRun, processExitCode], by simp⟩
  simp [mainRun]

/-- C2 counterexample: an HTTP 200 response whose body parses as the valid
JSON empty object `\x7b\x7d` is reported as a failure by
`report_service_status` (`if api_result:` is false on an empty dict),
contradicting the claim that every 200-with-JSON-body report returns
`True`. -/
theorem C2_counterexample :
    reportServiceStatus
      { host := Json.str "h", port := Json.num 80,
        status := Status.online, responseTime := some 5 }
      (NetOutcome.response 200 (some (Json.obj []))) = false := rfl

/-- C2 (amended): `report_service_status` returns `True` exactly when the
POST produced an HTTP 200 whose body parsed as JSON *and* the parsed
value is truthy in Python's sense (in particular a non-empty object); a
200 whose body parses to `\x7b\x7d`, `null`, `false`, `0`, `""` or `[]`
is treated as a failure, as are non-200 statuses, connection errors,
timeouts and parse errors. -/
theorem C2_report_success_iff_truthy_body (result : CheckResult) (o : NetOutcome) :
    reportServiceStatus result o = true ↔
      ∃ j, o = NetOutcome.response 200 (some j) ∧ pyTruthy j = true := by
  cases o with
  | netError => simp [reportServiceStatus, sendApiRequest]
  | response status parsed =>
      by_cases hs : status = 200
      · subst hs
        cases parsed with
        | none => simp [reportServiceStatus, sendApiRequest]
        | some j => simp [reportServiceStatus, sendApiRequest]
      · simp [reportServiceStatus, sendApiRequest, hs]

/-- C3 counterexample: a peer that accepts after exactly 1000 ms yields
status `online`, not `degraded` (the code tests `response_time > 1000`,
strictly), contradicting the claim's "≥ 1000 ms ⇒ degraded". -/
theorem C3_counterexample :
    (checkService (Json.str "h") (Json.num 80) (ProbeOutcome.success 1000)).status
      = Status.online ∧ Status.online ≠ Status.degraded := ⟨rfl, by decide⟩

/-- C3 (amended): a connection accepted after *strictly more than* 1000
measured milliseconds (and within the timeout) is classified `degraded`;
at exactly 1000 ms it is `online`. -/
theorem C3_slow_accept_degraded (host port : Json) (ms : Nat)
    (h1 : degradedThresholdMs < ms) (h2 : ms ≤ REQUEST_TIMEOUT * 1000) :
    (checkService host port (ProbeOutcome.success ms)).status = Status.degraded := by
  simp [checkService, h1]

theorem C3_slow_accept_degraded_witness :
    (checkService Json.null Json.null (ProbeOutcome.success 1500)).status
      = Status.degraded :=
  C3_slow_accept_degraded Json.null Json.null 1500 (by decide) (by decide)

/-- C4 counterexample: a successful heartbeat whose response carries a
malformed (non-list) `services` value leaves the prior worklist fully in
place — stale entries are *not* discarded — contradicting the claim's
"stale entries are discarded even if the new list is empty or
malformed". -/
theorem C4_counterexample :
    sendHeartbeat
      (some (Json.obj [("agentId", Json.str "a"), ("services", Json.str "oops")]))
      [Json.null]
      = (true, [Json.null]) ∧ ([Json.null] : List Json) ≠ [] := ⟨rfl, by simp⟩

/-- C4 (amended): on every successful heartbeat whose response carries a
`services` value that is a *list*, the worklist is replaced in full with
exactly those entries, in the given order, regardless of the store's
prior contents (including when the new list is empty); when the
`services` value is present but not a list, or absent, the store is left
unchanged. -/
theorem C4_worklist_replaced_when_list (fs : List (String × Json)) (a : Json)
    (l services : List Json)
    (hA : objGet fs "agentId" = some a)
    (hS : objGet fs "services" = some (Json.arr l)) :
    (sendHeartbeat (some (Json.obj fs)) services).2 = l := by
  have hT := truthy_of_objGet_some hA
  have hAnyA := any_key_of_objGet_some hA
  have hAnyS := any_key_of_objGet_some hS
  simp only [sendHeartbeat, hT, Bool.not_true, Bool.false_eq_true, if_false,
    inOp, hAnyA, hAnyS, indexOp, hA, hS]
  cases h : l.all entryPrintable <;> simp [h]

theorem C4_worklist_replaced_when_list_witness :
    (sendHeartbeat
      (some (Json.obj [("agentId", Json.str "a"), ("services", Json.arr [])]))
      [Json.null]).2 = [] :=
  C4_worklist_replaced_when_list _ _ _ _ rfl rfl

/-- C5: every failed heartbeat attempt — `send_api_request` returning the
`None` sentinel (non-200, unparsable body, or network error), or a 200
body that lacks an `agentId` field — returns `False` and leaves the
worklist exactly as it was; `send_heartbeat` is total, so the agent
proceeds to the next scheduled heartbeat without crashing. -/
theorem C5_failed_heartbeat_preserves_state (result : Option Json)
    (services : List Json)
    (h : result = none ∨ ∃ r, result = some r ∧ jsonField r "agentId" = none) :
    sendHeartbeat result services = (false, services) := by
  rcases h with h | ⟨r, hr, hA⟩
  · subst h; rfl
  · subst hr
    cases r with
    | null => rfl
    | bool b => cases b <;> rfl
    | num n =>
        cases hn : (n != 0) <;> simp [sendHeartbeat, pyTruthy, inOp, hn]
    | str s =>
        cases hs : (s != "") <;>
          cases hsub : listHasSub "agentId".data s.data <;>
            simp [sendHeartbeat, pyTruthy, inOp, indexOp, hs, hsub]
    | arr xs =>
        cases he : xs.isEmpty <;>
          cases hel : xs.any (fun j => match j with | .str s => s == "agentId" | _ => false) <;>
            simp [sendHeartbeat, pyTruthy, inOp, indexOp, he, hel]
    | obj fs =>
        have hAny := any_key_of_objGet_none (k := "agentId") hA
        cases he : fs.isEmpty <;>
          simp [sendHeartbeat, pyTruthy, inOp, he, hAny]

theorem C5_failed_heartbeat_preserves_state_witness :
    sendHeartbeat (some (Json.obj [("status", Json.str "ok")])) [Json.null]
      = (false, [Json.null]) :=
  C5_failed_heartbeat_preserves_state _ _ (Or.inr ⟨_, rfl, rfl⟩)

/-- C6: a probe whose connect attempt times out, is refused/unreachable
(`socket.error`), or raises any other exception yields status `offline`
with `responseTime = None`; `checkService` is a total function, so no
exception escapes the prober's boundary. -/
theorem C6_transport_failure_offline (host port : Json) :
    checkService host port ProbeOutcome.timeout
        = { host := host, port := port, status := Status.offline, responseTime := none } ∧
    checkService host port ProbeOutcome.sockError
        = { host := host, port := port, status := Status.offline, responseTime := none } ∧
    checkService host port ProbeOutcome.otherError
        = { host := host, port := port, status := Status.offline, responseTime := none } :=
  ⟨rfl, rfl, rfl⟩

/-- C7: a connection that succeeds within the timeout is classified
`online` when the measured elapsed milliseconds are ≤ 1000 and `degraded`
otherwise; the threshold is the fixed module-level constant
`degradedThresholdMs = 1000` — `checkService` takes no per-service
threshold parameter. -/
theorem C7_connect_classification (host port : Json) (ms : Nat)
    (h : ms ≤ REQUEST_TIMEOUT * 1000) :
    (checkService host port (ProbeOutcome.success ms)).status
      = (if ms ≤ degradedThresholdMs then Status.online else Status.degraded) := by
  by_cases hle : ms ≤ degradedThresholdMs
  · simp [checkService, hle, Nat.not_lt.mpr hle]
  · simp [checkService, hle, Nat.lt_of_not_le hle]

theorem C7_connect_classification_witness :
    (checkService Json.null Json.null (ProbeOutcome.success 500)).status
      = (if 500 ≤ degradedThresholdMs then Status.online else Status.degraded) :=
  C7_connect_classification Json.null Json.null 500 (by decide)

/-- C8: within a single sweep each worklist entry is processed under its
own exception guard, so one entry's fault (malformed entry, probe
exception, or report failure) never changes how the entries before or
after it are processed; concretely, a 3-service sweep whose 2nd entry
lacks a `host` key (raising `KeyError`) still records outcomes for
services 1 and 3. -/
theorem C8_sweep_isolation (pre post : List (Json × ProbeOutcome × NetOutcome))
    (x : Json × ProbeOutcome × NetOutcome) :
    runServiceChecks (pre ++ x :: post)
        = runServiceChecks pre ++ sweepEntry x :: runServiceChecks post ∧
    runServiceChecks
        [(Json.obj [("host", Json.str "a"), ("port", Json.num 1)],
            ProbeOutcome.success 5,
            NetOutcome.response 200 (some (Json.obj [("ok", Json.bool true)]))),
         (Json.obj [], ProbeOutcome.success 5,
            NetOutcome.response 200 (some (Json.obj [("ok", Json.bool true)]))),
         (Json.obj [("host", Json.str "b"), ("port", Json.num 2)],
            ProbeOutcome.success 7,
            NetOutcome.response 200 (some (Json.obj [("ok", Json.bool true)])))]
      = [SweepOutcome.reported
           (checkService (Json.str "a") (Json.num 1) (ProbeOutcome.success 5)) true,
         SweepOutcome.faulted,
         SweepOutcome.reported
           (checkService (Json.str "b") (Json.num 2) (ProbeOutcome.success 7)) true] := by
  constructor
  · simp [runServiceChecks]
  · rfl

/-- C9: with valid configuration, `main` issues one heartbeat before the
loop's timing logic begins (the `heartbeat` action precedes `enterLoop`
in `main`'s action sequence), and within a single loop iteration in which
both actions are due, the heartbeat fires before the check sweep. -/
theorem C9_heartbeat_precedes_checks (apiKey baseUrl : String) (now : Nat)
    (st : LoopState)
    (hk : apiKey ≠ apiKeyPlaceholder) (hu : baseUrl ≠ baseUrlPlaceholder)
    (hhb : now - st.lastHeartbeat ≥ HEARTBEAT_INTERVAL)
    (hsc : now - st.lastServiceCheck ≥ CHECK_INTERVAL) :
    (mainRun apiKey baseUrl).1
        = [MainAction.printStartup, MainAction.heartbeat, MainAction.enterLoop] ∧
    (loopIter now st).1 = [LoopAction.heartbeat, LoopAction.checkSweep] := by
  constructor
  · simp [mainRun, hk, hu]
  · simp [loopIter, hhb, hsc]

theorem C9_heartbeat_precedes_checks_witness :
    (mainRun "key123" "http://example.test").1
        = [MainAction.printStartup, MainAction.heartbeat, MainAction.enterLoop] ∧
    (loopIter 10 { lastHeartbeat := 5, lastServiceCheck := 5 }).1
        = [LoopAction.heartbeat, LoopAction.checkSweep] :=
  C9_heartbeat_precedes_checks "key123" "http://example.test" 10
    { lastHeartbeat := 5, lastServiceCheck := 5 }
    (by decide) (by decide) (by decide) (by decide)

/-- C10: for every service record whose `host` and `port` subscriptions
succeed, `check_service` returns a record with exactly the fields
`host`, `port`, `status`, `responseTime` (the `CheckResult` structure),
the input host/port echoed back, status drawn from
online/degraded/offline, and `responseTime = None` exactly when the
status is `offline` (otherwise it is a natural number of milliseconds,
hence a non-negative integer). -/
theorem C10_check_result_shape (service : Json) (o : ProbeOutcome) (hv pv : Json)
    (hh : indexOp service "host" = Except.ok hv)
    (hp : indexOp service "port" = Except.ok pv) :
    ∃ r, checkServiceEntry service o = Except.ok r ∧
      r.host = hv ∧ r.port = pv ∧
      (r.status = Status.online ∨ r.status = Status.degraded ∨ r.status = Status.offline) ∧
      (r.responseTime = none ↔ r.status = Status.offline) := by
  cases o with
  | success ms =>
      refine ⟨checkService hv pv (ProbeOutcome.success ms),
        by simp [checkServiceEntry, hh, hp], rfl, rfl, ?_, ?_⟩
      · by_cases hms : degradedThresholdMs < ms <;> simp [checkService, hms]
      · by_cases hms : degradedThresholdMs < ms <;> simp [checkService, hms]
  | timeout =>
      exact ⟨checkService hv pv ProbeOutcome.timeout,
        by simp [checkServiceEntry, hh, hp], rfl, rfl,
        Or.inr (Or.inr rfl), iff_of_true rfl rfl⟩
  | sockError =>
      exact ⟨checkService hv pv ProbeOutcome.sockError,
        by simp [checkServiceEntry, hh, hp], rfl, rfl,
        Or.inr (Or.inr rfl), iff_of_true rfl rfl⟩
  | otherError =>
      exact ⟨checkService hv pv ProbeOutcome.otherError,
        by simp [checkServiceEntry, hh, hp], rfl, rfl,
        Or.inr (Or.inr rfl), iff_of_true rfl rfl⟩

theorem C10_check_result_shape_witness :
    ∃ r, checkServiceEntry
        (Json.obj [("host", Json.str "a"), ("port", Json.num 1)])
        ProbeOutcome.timeout = Except.ok r ∧
      r.host = Json.str "a" ∧ r.port = Json.num 1 ∧
      (r.status = Status.online ∨ r.status = Status.degraded ∨ r.status = Status.offline) ∧
      (r.responseTime = none ↔ r.status = Status.offline) :=
  C10_check_result_shape _ _ _ _ rfl rfl

end PatrolD
